import Mathlib

/-!
Verification of the air-pollution dashboard's core logic.

The JavaScript source computes an Air Quality Index (AQI) from PM2.5 and
PM10 concentrations via US EPA breakpoint interpolation (`getAQIFromPM`,
`calcAQI`), classifies AQI values into severity tiers (`getQuality` in
AirQualityCard.jsx), picks a health-advisory sentence (inline ternary chain
in `App`), extracts a 7-sample PM trend (`fetchAirQuality`), and generates a
naive 3-day prediction (`generatePredictions`).

JavaScript numbers are embedded as exact rationals (ℚ); a missing/null
reading is `Option.none`.  `Math.round` on the non-negative values arising
here is `⌊x + 1/2⌋` (round half toward +∞), embedded as `jsRound`.
-/

/-- One EPA breakpoint segment: concentration range `[cLow, cHigh]` mapped
linearly onto index range `[iLow, iHigh]`. -/
structure Breakpoint where
  cLow : ℚ
  cHigh : ℚ
  iLow : ℤ
  iHigh : ℤ
deriving DecidableEq, Repr

/-- JavaScript `Math.round` (round half toward +∞): `⌊x + 1/2⌋`. -/
def jsRound (x : ℚ) : ℤ := (x + 1 / 2).floor

/-- `Rat.floor` is the `Int.floor` of the `FloorRing ℚ` instance. -/
theorem ratFloor_eq (q : ℚ) : q.floor = ⌊q⌋ := rfl

/-- `jsRound` is the mathematical floor of `x + 1/2`. -/
theorem jsRound_eq_floor (x : ℚ) : jsRound x = ⌊x + 1 / 2⌋ := ratFloor_eq _

/-- The PM2.5 breakpoint table from `getAQIFromPM`. -/
def pm25Breakpoints : List Breakpoint :=
  [ ⟨0, 12, 0, 50⟩,
    ⟨12.1, 35.4, 51, 100⟩,
    ⟨35.5, 55.4, 101, 150⟩,
    ⟨55.5, 150.4, 151, 200⟩,
    ⟨150.5, 250.4, 201, 300⟩,
    ⟨250.5, 350.4, 301, 400⟩,
    ⟨350.5, 500, 401, 500⟩ ]

/-- The PM10 breakpoint table from `getAQIFromPM`. -/
def pm10Breakpoints : List Breakpoint :=
  [ ⟨0, 54, 0, 50⟩,
    ⟨55, 154, 51, 100⟩,
    ⟨155, 254, 101, 150⟩,
    ⟨255, 354, 151, 200⟩,
    ⟨355, 424, 201, 300⟩,
    ⟨425, 504, 301, 400⟩,
    ⟨505, 604, 401, 500⟩ ]

/-- The interpolation formula applied inside a matching segment:
`round(((iHigh - iLow) / (cHigh - cLow)) * (c - cLow) + iLow)`. -/
def segEval (bp : Breakpoint) (c : ℚ) : ℤ :=
  jsRound (((bp.iHigh - bp.iLow : ℤ) : ℚ) / (bp.cHigh - bp.cLow) * (c - bp.cLow) + (bp.iLow : ℚ))

/-- The `for`-loop of `calcAQI`: scan the table in order, return the value of
the first segment containing `c`, else `null`. -/
def calcAQIAux (c : ℚ) : List Breakpoint → Option ℤ
  | [] => none
  | bp :: rest =>
      if bp.cLow ≤ c ∧ c ≤ bp.cHigh then some (segEval bp c) else calcAQIAux c rest

/-- `calcAQI(c, breakpoints)`: `null` input gives `null`, else scan the table. -/
def calcAQI : Option ℚ → List Breakpoint → Option ℤ
  | none, _ => none
  | some c, bps => calcAQIAux c bps

/-- `getAQIFromPM(pm25, pm10)`: the max of the two sub-indices, where
`x || 0` on an integer-or-null sub-index yields the integer when present
(a present 0 is falsy in JavaScript but `0 || 0 = 0` anyway) and 0 when null,
i.e. `Option.getD 0`. -/
def getAQIFromPM (pm25 pm10 : Option ℚ) : ℤ :=
  let aqiPm25 := calcAQI pm25 pm25Breakpoints
  let aqiPm10 := calcAQI pm10 pm10Breakpoints
  max (aqiPm25.getD 0) (aqiPm10.getD 0)

example : calcAQI (some 12) pm25Breakpoints = some 50 := by
  simp only [calcAQI, pm25Breakpoints, calcAQIAux, segEval, jsRound_eq_floor]
  norm_num [Int.floor_eq_iff]

example : getAQIFromPM (some 12) none = 50 := by
  simp only [getAQIFromPM, calcAQI, pm25Breakpoints, calcAQIAux, segEval, jsRound_eq_floor]
  norm_num [Int.floor_eq_iff]

example : getAQIFromPM none none = 0 := rfl

/-- `getQuality` from AirQualityCard.jsx: severity label and color from AQI.
Modelled as a (label, color) pair of strings. -/
def getQuality (aqi : ℤ) : String × String :=
  if aqi ≤ 50 then ("Good", "#00e400")
  else if aqi ≤ 100 then ("Moderate", "#ffff00")
  else if aqi ≤ 150 then ("Unhealthy (Sensitive)", "#ff7e00")
  else if aqi ≤ 200 then ("Unhealthy", "#ff0000")
  else if aqi ≤ 300 then ("Very Unhealthy", "#8f3f97")
  else ("Hazardous", "#7e0023")

/-- The health-advice ternary chain rendered by `App` (lines 418-426 of the
main component). -/
def healthAdvice (aqi : ℤ) : String :=
  if aqi ≤ 50 then "Air quality is good. Enjoy outdoor activities!"
  else if aqi ≤ 100 then "Moderate air quality. Sensitive people should limit outdoor activity."
  else if aqi ≤ 150 then "Unhealthy for sensitive groups. Avoid outdoor exercise."
  else if aqi ≤ 200 then "Unhealthy air! Stay indoors with filtered air."
  else "Very unhealthy! Avoid going outside and use air purifiers."

/-- JavaScript `Array.prototype.slice(-7)`: the last `min 7 length` elements. -/
def sliceLast7 {α : Type} (l : List α) : List α := l.drop (l.length - 7)

/-- The trend state set by `fetchAirQuality`: filtered PM2.5 and PM10 series
plus the positional hour labels. -/
structure PmTrend where
  pm2_5 : List ℚ
  pm10 : List ℚ
  labels : List String
deriving DecidableEq, Repr

/-- Trend extraction in `fetchAirQuality` (lines 178-185): filter null/NaN per
pollutant (a null or NaN reading is `none`), keep the last 7 of each, and
label positions from the PM2.5 series only. -/
def extractTrend (pm25Hourly pm10Hourly : List (Option ℚ)) : PmTrend :=
  let pm2_5 := sliceLast7 (pm25Hourly.filterMap id)
  let pmTen := sliceLast7 (pm10Hourly.filterMap id)
  let labels := pm2_5.enum.map fun p => "Hour " ++ toString (p.1 + 1)
  ⟨pm2_5, pmTen, labels⟩

/-- `generatePredictions(currentAQI)`: `[1,2,3].map((d, i) =>
({day: "Day d", aqi: min(currentAQI + i*10, 500)}))`. -/
def generatePredictions (currentAQI : ℤ) : List (String × ℤ) :=
  (List.enum [1, 2, 3]).map fun p =>
    ("Day " ++ toString p.2, min (currentAQI + (p.1 : ℤ) * 10) 500)

/-- The AQI-to-prediction step of `fetchAirQuality`: the current AQI computed
by `getAQIFromPM` is fed to `generatePredictions`. -/
def pipelinePredictions (pm25 pm10 : Option ℚ) : List (String × ℤ) :=
  generatePredictions (getAQIFromPM pm25 pm10)

example : generatePredictions 100 = [("Day 1", 100), ("Day 2", 110), ("Day 3", 120)] := rfl
example : generatePredictions 495 = [("Day 1", 495), ("Day 2", 500), ("Day 3", 500)] := rfl
example : getQuality 301 = ("Hazardous", "#7e0023") := rfl
example : healthAdvice 250 = healthAdvice 350 := rfl

/-- The PM2.5 table is ordered: each segment ends strictly before the next begins. -/
theorem pm25_pairwise : pm25Breakpoints.Pairwise (fun a b => a.cHigh < b.cLow) := by
  simp only [pm25Breakpoints, List.pairwise_cons, List.mem_cons, List.not_mem_nil,
    List.mem_singleton]
  norm_num

/-- The PM10 table is ordered: each segment ends strictly before the next begins. -/
theorem pm10_pairwise : pm10Breakpoints.Pairwise (fun a b => a.cHigh < b.cLow) := by
  simp only [pm10Breakpoints, List.pairwise_cons, List.mem_cons, List.not_mem_nil,
    List.mem_singleton]
  norm_num

/-- In an ordered table, the scan returns the value of the (unique) segment
containing `c`. -/
theorem calcAQIAux_mem (c : ℚ) :
    ∀ bps : List Breakpoint, bps.Pairwise (fun a b => a.cHigh < b.cLow) →
      ∀ bp ∈ bps, bp.cLow ≤ c → c ≤ bp.cHigh →
      calcAQIAux c bps = some (segEval bp c)
  | [], _, bp, hmem, _, _ => absurd hmem (List.not_mem_nil bp)
  | hd :: tl, hp, bp, hmem, h1, h2 => by
      rcases List.mem_cons.mp hmem with rfl | hmem'
      · rw [calcAQIAux, if_pos (show bp.cLow ≤ c ∧ c ≤ bp.cHigh from ⟨h1, h2⟩)]
      · have hlt : hd.cHigh < bp.cLow := (List.pairwise_cons.mp hp).1 bp hmem'
        have hno : ¬(hd.cLow ≤ c ∧ c ≤ hd.cHigh) := by
          rintro ⟨_, hc⟩
          linarith
        rw [calcAQIAux, if_neg hno]
        exact calcAQIAux_mem c tl (List.pairwise_cons.mp hp).2 bp hmem' h1 h2

/-- If no segment contains `c`, the scan returns `null`. -/
theorem calcAQIAux_none (c : ℚ) :
    ∀ bps : List Breakpoint, (∀ bp ∈ bps, ¬(bp.cLow ≤ c ∧ c ≤ bp.cHigh)) →
      calcAQIAux c bps = none
  | [], _ => rfl
  | hd :: tl, h => by
      rw [calcAQIAux, if_neg (h hd (List.mem_cons_self hd tl))]
      exact calcAQIAux_none c tl fun bp hbp => h bp (List.mem_cons_of_mem hd hbp)

/-- The interpolation formula at the segment's lower endpoint gives `iLow`. -/
theorem segEval_cLow (bp : Breakpoint) : segEval bp bp.cLow = bp.iLow := by
  rw [segEval, jsRound_eq_floor, sub_self, mul_zero, zero_add, Int.floor_int_add]
  norm_num

/-- The interpolation formula at the segment's upper endpoint gives `iHigh`,
provided the segment is non-degenerate. -/
theorem segEval_cHigh (bp : Breakpoint) (h : bp.cLow < bp.cHigh) :
    segEval bp bp.cHigh = bp.iHigh := by
  have hne : bp.cHigh - bp.cLow ≠ 0 := sub_ne_zero.mpr (ne_of_gt h)
  rw [segEval, jsRound_eq_floor, div_mul_cancel₀ _ hne,
    show ((bp.iHigh - bp.iLow : ℤ) : ℚ) + bp.iLow = (bp.iHigh : ℚ) by push_cast; ring,
    Int.floor_int_add]
  norm_num

/-- The interpolation formula is monotone on a non-degenerate segment with
non-decreasing index bounds. -/
theorem segEval_mono (bp : Breakpoint) (h : bp.cLow < bp.cHigh)
    (hi : bp.iLow ≤ bp.iHigh) (c1 c2 : ℚ) (hc : c1 ≤ c2) :
    segEval bp c1 ≤ segEval bp c2 := by
  rw [segEval, segEval, jsRound_eq_floor, jsRound_eq_floor]
  apply Int.floor_le_floor
  have hslope : (0 : ℚ) ≤ ((bp.iHigh - bp.iLow : ℤ) : ℚ) / (bp.cHigh - bp.cLow) := by
    apply div_nonneg
    · exact_mod_cast sub_nonneg.mpr hi
    · linarith
  have := mul_le_mul_of_nonneg_left (sub_le_sub_right hc bp.cLow) hslope
  linarith

/-- C1: for every pair of optional PM2.5 and PM10 concentrations, the combined
AQI returned by `getAQIFromPM` is the maximum of the PM2.5-derived and
PM10-derived sub-indices, an undefined (`none`) sub-index counting as 0; in
particular both inputs absent give combined AQI 0. -/
theorem getAQIFromPM_max_of_subindices (pm25 pm10 : Option ℚ) :
    getAQIFromPM pm25 pm10 =
      max ((calcAQI pm25 pm25Breakpoints).getD 0) ((calcAQI pm10 pm10Breakpoints).getD 0) ∧
    getAQIFromPM none none = 0 :=
  ⟨rfl, rfl⟩

/-- C3: `generatePredictions` produces exactly the three pairs
("Day 1", min a 500), ("Day 2", min (a+10) 500), ("Day 3", min (a+20) 500),
in that order; in particular 100 yields [100, 110, 120] and 495 yields
[495, 500, 500]. -/
theorem generatePredictions_formula (a : ℤ) :
    generatePredictions a =
      [("Day 1", min a 500), ("Day 2", min (a + 10) 500), ("Day 3", min (a + 20) 500)] ∧
    generatePredictions 100 = [("Day 1", 100), ("Day 2", 110), ("Day 3", 120)] ∧
    generatePredictions 495 = [("Day 1", 495), ("Day 2", 500), ("Day 3", 500)] := by
  refine ⟨?_, rfl, rfl⟩
  show [("Day 1", min (a + 0 * 10) 500), ("Day 2", min (a + 1 * 10) 500),
    ("Day 3", min (a + 2 * 10) 500)] = _
  norm_num

/-- C9: every run of the prediction step of `fetchAirQuality` produces exactly
3 predictions: the current AQI computed by `getAQIFromPM` is always a defined
integer (possibly the 0 fallback), so `generatePredictions` always receives a
value and always yields a 3-element list. -/
theorem pipelinePredictions_length (pm25 pm10 : Option ℚ) :
    (pipelinePredictions pm25 pm10).length = 3 :=
  rfl

/-- C4: `getQuality` assigns exactly one of six non-overlapping severity tiers
with upper-inclusive boundaries [0,50] Good, [51,100] Moderate, [101,150]
Unhealthy (Sensitive), [151,200] Unhealthy, [201,300] Very Unhealthy,
[301,∞) Hazardous; in particular 50 is Good, 51 Moderate, 300 Very Unhealthy,
301 Hazardous. -/
theorem getQuality_tiers (a : ℤ) :
    (0 ≤ a → a ≤ 50 → (getQuality a).1 = "Good") ∧
    (51 ≤ a → a ≤ 100 → (getQuality a).1 = "Moderate") ∧
    (101 ≤ a → a ≤ 150 → (getQuality a).1 = "Unhealthy (Sensitive)") ∧
    (151 ≤ a → a ≤ 200 → (getQuality a).1 = "Unhealthy") ∧
    (201 ≤ a → a ≤ 300 → (getQuality a).1 = "Very Unhealthy") ∧
    (301 ≤ a → (getQuality a).1 = "Hazardous") ∧
    (getQuality 50).1 = "Good" ∧ (getQuality 51).1 = "Moderate" ∧
    (getQuality 300).1 = "Very Unhealthy" ∧ (getQuality 301).1 = "Hazardous" := by
  refine ⟨?_, ?_, ?_, ?_, ?_, ?_, rfl, rfl, rfl, rfl⟩ <;>
    · intros
      simp only [getQuality]
      split_ifs <;> first | rfl | omega

/-- Witness for C4 at AQI 50. -/
theorem getQuality_tiers_witness : (getQuality 50).1 = "Good" :=
  (getQuality_tiers 50).1 (by decide) (by decide)

/-- C5: the trend extractor filters invalid entries independently per
pollutant, keeps the last `min 7 validCount` entries of each, and derives the
hour labels from the PM2.5 series length only; on the spec's example inputs
the labels have length 7 while the PM10 series has length 5. -/
theorem extractTrend_lengths (pm25Hourly pm10Hourly : List (Option ℚ)) :
    (extractTrend pm25Hourly pm10Hourly).pm2_5.length =
      min 7 (pm25Hourly.filterMap id).length ∧
    (extractTrend pm25Hourly pm10Hourly).pm10.length =
      min 7 (pm10Hourly.filterMap id).length ∧
    (extractTrend pm25Hourly pm10Hourly).labels.length =
      (extractTrend pm25Hourly pm10Hourly).pm2_5.length ∧
    (extractTrend [some 1, some 2, none, some 3, some 4, some 5, some 6, some 7, some 8]
      [some 10, some 20, some 30, some 40, some 50]).labels.length = 7 ∧
    (extractTrend [some 1, some 2, none, some 3, some 4, some 5, some 6, some 7, some 8]
      [some 10, some 20, some 30, some 40, some 50]).pm10.length = 5 := by
  refine ⟨?_, ?_, ?_, rfl, rfl⟩
  · simp only [extractTrend, sliceLast7, List.length_drop]
    omega
  · simp only [extractTrend, sliceLast7, List.length_drop]
    omega
  · simp only [extractTrend, List.length_map, List.enum_length]

/-- C2: for every breakpoint segment in either table, `calcAQI` at `cLow`
returns exactly `iLow` and at `cHigh` exactly `iHigh`; in particular PM2.5
concentration 12 gives sub-index 50, so `getAQIFromPM (some 12) none = 50`. -/
theorem calcAQI_segment_endpoints :
    (∀ bp ∈ pm25Breakpoints,
      calcAQI (some bp.cLow) pm25Breakpoints = some bp.iLow ∧
      calcAQI (some bp.cHigh) pm25Breakpoints = some bp.iHigh) ∧
    (∀ bp ∈ pm10Breakpoints,
      calcAQI (some bp.cLow) pm10Breakpoints = some bp.iLow ∧
      calcAQI (some bp.cHigh) pm10Breakpoints = some bp.iHigh) ∧
    getAQIFromPM (some 12) none = 50 := by
  refine ⟨?_, ?_, ?_⟩
  · intro bp hbp
    have hlt : bp.cLow < bp.cHigh := by fin_cases hbp <;> norm_num
    constructor
    · show calcAQIAux bp.cLow pm25Breakpoints = some bp.iLow
      rw [calcAQIAux_mem bp.cLow pm25Breakpoints pm25_pairwise bp hbp le_rfl hlt.le,
        segEval_cLow]
    · show calcAQIAux bp.cHigh pm25Breakpoints = some bp.iHigh
      rw [calcAQIAux_mem bp.cHigh pm25Breakpoints pm25_pairwise bp hbp hlt.le le_rfl,
        segEval_cHigh bp hlt]
  · intro bp hbp
    have hlt : bp.cLow < bp.cHigh := by fin_cases hbp <;> norm_num
    constructor
    · show calcAQIAux bp.cLow pm10Breakpoints = some bp.iLow
      rw [calcAQIAux_mem bp.cLow pm10Breakpoints pm10_pairwise bp hbp le_rfl hlt.le,
        segEval_cLow]
    · show calcAQIAux bp.cHigh pm10Breakpoints = some bp.iHigh
      rw [calcAQIAux_mem bp.cHigh pm10Breakpoints pm10_pairwise bp hbp hlt.le le_rfl,
        segEval_cHigh bp hlt]
  · simp only [getAQIFromPM, calcAQI, pm25Breakpoints, calcAQIAux, segEval, jsRound_eq_floor]
    norm_num [Int.floor_eq_iff]

/-- Witness for C2 at the first PM2.5 segment. -/
theorem calcAQI_segment_endpoints_witness :
    calcAQI (some (0 : ℚ)) pm25Breakpoints = some 0 ∧
    calcAQI (some (12 : ℚ)) pm25Breakpoints = some 50 :=
  calcAQI_segment_endpoints.1 ⟨0, 12, 0, 50⟩ (List.mem_cons_self _ _)

/-- C6: within any single segment of either table, the sub-index is
monotonically non-decreasing in the concentration: for `c1 ≤ c2` strictly
inside the same segment both scans hit that segment and the interpolated
values satisfy `a1 ≤ a2`. -/
theorem calcAQI_mono_within_segment (bps : List Breakpoint)
    (hbps : bps = pm25Breakpoints ∨ bps = pm10Breakpoints)
    (bp : Breakpoint) (hmem : bp ∈ bps) (c1 c2 : ℚ)
    (h1l : bp.cLow < c1) (h1h : c1 < bp.cHigh)
    (h2l : bp.cLow < c2) (h2h : c2 < bp.cHigh) (hc : c1 ≤ c2) :
    calcAQI (some c1) bps = some (segEval bp c1) ∧
    calcAQI (some c2) bps = some (segEval bp c2) ∧
    segEval bp c1 ≤ segEval bp c2 := by
  have hpair : bps.Pairwise (fun a b => a.cHigh < b.cLow) := by
    rcases hbps with rfl | rfl
    · exact pm25_pairwise
    · exact pm10_pairwise
  have hseg : bp.cLow < bp.cHigh ∧ bp.iLow ≤ bp.iHigh := by
    rcases hbps with rfl | rfl <;> fin_cases hmem <;> exact ⟨by norm_num, by norm_num⟩
  exact ⟨calcAQIAux_mem c1 bps hpair bp hmem h1l.le h1h.le,
    calcAQIAux_mem c2 bps hpair bp hmem h2l.le h2h.le,
    segEval_mono bp hseg.1 hseg.2 c1 c2 hc⟩

/-- Witness for C6 inside the first PM2.5 segment at concentrations 1 and 2. -/
theorem calcAQI_mono_within_segment_witness :
    calcAQI (some (1 : ℚ)) pm25Breakpoints = some (segEval ⟨0, 12, 0, 50⟩ 1) ∧
    calcAQI (some (2 : ℚ)) pm25Breakpoints = some (segEval ⟨0, 12, 0, 50⟩ 2) ∧
    segEval ⟨0, 12, 0, 50⟩ 1 ≤ segEval ⟨0, 12, 0, 50⟩ 2 :=
  calcAQI_mono_within_segment pm25Breakpoints (Or.inl rfl) ⟨0, 12, 0, 50⟩
    (List.mem_cons_self _ _) 1 2 (by norm_num) (by norm_num) (by norm_num) (by norm_num)
    (by norm_num)

/-- C7: a concentration contained in no segment of a table yields an undefined
(`none`) sub-index — in general, and in particular for any negative
concentration or any concentration above the table's maximum `cHigh`; the
value is not clamped to the nearest segment. -/
theorem calcAQI_outside_none (c : ℚ) :
    (∀ bps : List Breakpoint, (∀ bp ∈ bps, ¬(bp.cLow ≤ c ∧ c ≤ bp.cHigh)) →
      calcAQI (some c) bps = none) ∧
    (c < 0 → calcAQI (some c) pm25Breakpoints = none ∧
      calcAQI (some c) pm10Breakpoints = none) ∧
    (500 < c → calcAQI (some c) pm25Breakpoints = none) ∧
    (604 < c → calcAQI (some c) pm10Breakpoints = none) := by
  refine ⟨fun bps h => calcAQIAux_none c bps h, ?_, ?_, ?_⟩
  · intro hc
    constructor <;>
      · apply calcAQIAux_none
        intro bp hbp
        fin_cases hbp <;>
          · rintro ⟨ha, hb⟩
            norm_num at ha hb
            linarith
  · intro hc
    apply calcAQIAux_none
    intro bp hbp
    fin_cases hbp <;>
      · rintro ⟨ha, hb⟩
        norm_num at ha hb
        linarith
  · intro hc
    apply calcAQIAux_none
    intro bp hbp
    fin_cases hbp <;>
      · rintro ⟨ha, hb⟩
        norm_num at ha hb
        linarith

/-- Witness for C7 at concentration -1. -/
theorem calcAQI_outside_none_witness :
    calcAQI (some (-1 : ℚ)) pm25Breakpoints = none ∧
    calcAQI (some (-1 : ℚ)) pm10Breakpoints = none :=
  (calcAQI_outside_none (-1)).2.1 (by norm_num)

/-- C10: strictly positive concentrations in the gaps between consecutive
segments exist (any PM2.5 `c` with `12 < c < 12.1`, any PM10 `c` with
`54 < c < 55`); their sub-index is `none`, and such a PM2.5 reading presented
alone yields combined AQI 0 despite being positive. -/
theorem calcAQI_gap_zero (c : ℚ) :
    (12 < c → c < 12.1 → calcAQI (some c) pm25Breakpoints = none ∧
      getAQIFromPM (some c) none = 0 ∧ 0 < c) ∧
    (54 < c → c < 55 → calcAQI (some c) pm10Breakpoints = none) := by
  constructor
  · intro h1 h2
    have hnone : calcAQIAux c pm25Breakpoints = none := by
      apply calcAQIAux_none
      intro bp hbp
      fin_cases hbp <;>
        · rintro ⟨ha, hb⟩
          norm_num at ha hb
          linarith
    refine ⟨hnone, ?_, by linarith⟩
    show max ((calcAQIAux c pm25Breakpoints).getD 0) ((calcAQI none pm10Breakpoints).getD 0) = 0
    rw [hnone]
    rfl
  · intro h1 h2
    apply calcAQIAux_none
    intro bp hbp
    fin_cases hbp <;>
      · rintro ⟨ha, hb⟩
        norm_num at ha hb
        linarith

/-- Witness for C10 at PM2.5 concentration 12.05. -/
theorem calcAQI_gap_zero_witness :
    calcAQI (some (12.05 : ℚ)) pm25Breakpoints = none ∧
    getAQIFromPM (some (12.05 : ℚ)) none = 0 ∧ (0 : ℚ) < 12.05 :=
  (calcAQI_gap_zero 12.05).1 (by norm_num) (by norm_num)

/-- C8 counterexample: AQI 250 (inside [201,300]) and AQI 350 (inside
[301,∞)) receive the same advisory sentence, refuting the claim that the
advisory classifier uses six boundaries with different advisories for the
Very-Unhealthy and Hazardous tiers. -/
theorem healthAdvice_collision :
    healthAdvice 250 = healthAdvice 350 ∧
    healthAdvice 250 = "Very unhealthy! Avoid going outside and use air purifiers." :=
  ⟨rfl, rfl⟩

/-- C8 (amended): the advisory classifier distinguishes only five bands, with
upper-inclusive boundaries [0,50], [51,100], [101,150], [151,200] and
[201,∞): every AQI of 201 or above, Hazardous included, receives the same
"Very unhealthy" advisory sentence. -/
theorem healthAdvice_five_tiers (a : ℤ) :
    (0 ≤ a → a ≤ 50 → healthAdvice a = "Air quality is good. Enjoy outdoor activities!") ∧
    (51 ≤ a → a ≤ 100 →
      healthAdvice a = "Moderate air quality. Sensitive people should limit outdoor activity.") ∧
    (101 ≤ a → a ≤ 150 →
      healthAdvice a = "Unhealthy for sensitive groups. Avoid outdoor exercise.") ∧
    (151 ≤ a → a ≤ 200 → healthAdvice a = "Unhealthy air! Stay indoors with filtered air.") ∧
    (201 ≤ a → healthAdvice a = "Very unhealthy! Avoid going outside and use air purifiers.") := by
  refine ⟨?_, ?_, ?_, ?_, ?_⟩ <;>
    · intros
      simp only [healthAdvice]
      split_ifs <;> first | rfl | omega

/-- Witness for the amended C8 at AQI 250. -/
theorem healthAdvice_five_tiers_witness :
    healthAdvice 250 = "Very unhealthy! Avoid going outside and use air purifiers." :=
  (healthAdvice_five_tiers 250).2.2.2.2 (by decide)
